import Mathlib

/-!
Verification of the flaskr tutorial blog application.

Shallow embedding of the application's data model and request handlers:
  - `src/flaskr/__init__.py` : the application factory `create_app` (which URL
    rules and endpoints it registers);
  - `src/flaskr/auth.py`     : the auth blueprint — `register`, `login`,
    `load_logged_in_user`, `login_required`;
  - `src/flaskr/blog.py`     : the blog blueprint — `index`, `create`,
    `get_post`, `update`, `delete`.

Rows of the two SQLite tables become Lean structures; the database becomes a
pair of row lists; the signed client session becomes an association list from
string keys to user ids; form data becomes an association list of strings.
Password hashing (werkzeug's `generate_password_hash` / `check_password_hash`)
is kept abstract: handlers take the hash and check functions as parameters.
`url_for` becomes a lookup in the endpoint table that the application factory
actually builds, so a missing endpoint surfaces as a `BuildError` outcome,
exactly as in Flask.  Handlers record the SQL statements they execute in a
`queries` trace where a claim depends on whether the database was touched.
-/

namespace Flaskr

/-- A row of the `user` table: `user(id PK, username UNIQUE NOT NULL,
password TEXT NOT NULL)`; the `password` column stores the salted hash. -/
structure User where
  id : Nat
  username : String
  password : String
deriving Repr, DecidableEq

/-- A row of the `post` table: `post(id PK, author_id FK NOT NULL,
created TIMESTAMP DEFAULT now, title TEXT NOT NULL, body TEXT NOT NULL)`.
Timestamps are modelled as naturals. -/
structure Post where
  id : Nat
  author_id : Nat
  created : Nat
  title : String
  body : String
deriving Repr, DecidableEq

/-- The SQLite database: the two tables of `schema.sql`. -/
structure DB where
  users : List User
  posts : List Post
deriving Repr, DecidableEq

/-- The signed client session: an association list from keys to user ids.
`flask.session` behaves as a dict; the only value this app ever stores is the
integer `user_id`. -/
abbrev Session := List (String × Nat)

/-- Submitted form data (`request.form`): an association list of strings. -/
abbrev Form := List (String × String)

/-- Dictionary lookup on form data; `none` models the key being absent, where
Python's `request.form[k]` raises a `KeyError` (`BadRequestKeyError`). -/
def formGet (form : Form) (k : String) : Option String :=
  (form.find? (fun kv => kv.fst == k)).map (fun kv => kv.snd)

/-- Dictionary lookup on the session (`session.get(k)`). -/
def sessionGet (s : Session) (k : String) : Option Nat :=
  (s.find? (fun kv => kv.fst == k)).map (fun kv => kv.snd)

/-- The observable outcome of one request handler invocation. -/
inductive Response where
  /-- `render_template(template)`, together with the messages `flash`ed
  while handling the request. -/
  | render (template : String) (flashes : List String)
  /-- `redirect(location)` (HTTP 302). -/
  | redirect (location : String)
  /-- `abort(code, msg)` — an `HTTPException` with that status code. -/
  | abortStatus (code : Nat) (msg : String)
  /-- `request.form[...]` raised `KeyError`; Flask turns the
  `BadRequestKeyError` into an HTTP 400 response. -/
  | keyError
  /-- `url_for` raised `werkzeug.routing.BuildError`: the endpoint is not
  registered on the application (HTTP 500). -/
  | buildError
  /-- `g.user['id']` raised `TypeError` because `g.user` is `None`. -/
  | noneTypeError
deriving Repr, DecidableEq

/-! ### The application factory (`src/flaskr/__init__.py`)

`create_app` registers, in order: the `/hello` route, the Flask `static`
route, and the `auth` blueprint (with `url_prefix='/auth'`).  These are all
the URL rules of the returned application: the factory never imports or
registers the blog blueprint, and adds no `'/'`/`'index'` rule. -/

/-- The (endpoint, url rule) table of the application returned by
`create_app`. -/
def create_app_rules : List (String × String) :=
  [("static", "/static/<path:filename>"),
   ("hello", "/hello"),
   ("auth.register", "/auth/register"),
   ("auth.login", "/auth/login"),
   ("auth.logout", "/auth/logout")]

/-- The (endpoint, url rule) table contributed by the blog blueprint
(`src/flaskr/blog.py`, no url_prefix) — available in the source tree but
never registered by `create_app`. -/
def blog_bp_rules : List (String × String) :=
  [("blog.index", "/"),
   ("blog.create", "/create"),
   ("blog.update", "/<int:id>/update"),
   ("blog.delete", "/<int:id>/delete")]

/-- `url_for(endpoint)` against a rule table: the url rule registered for the
endpoint, or `none` (Flask raises `BuildError`). -/
def url_for (rules : List (String × String)) (endpoint : String) : Option String :=
  (rules.find? (fun r => r.fst == endpoint)).map (fun r => r.snd)

/-- Routing: which endpoint serves a given request path. -/
def route_endpoint (rules : List (String × String)) (path : String) : Option String :=
  (rules.find? (fun r => r.snd == path)).map (fun r => r.fst)

/-- `redirect(url_for(endpoint))`: a redirect when the endpoint resolves,
otherwise the `BuildError` outcome. -/
def redirectTo (urlFor : String → Option String) (endpoint : String) : Response :=
  match urlFor endpoint with
  | some loc => Response.redirect loc
  | none => Response.buildError

/-- The `url_for` of the application actually produced by `create_app`. -/
def uf_app : String → Option String := url_for create_app_rules

/-! ### Auth blueprint (`src/flaskr/auth.py`) -/

/-- `SELECT * FROM user WHERE username = ?` followed by `fetchone()`.
SQLite returns the first matching row. -/
def find_user_by_username (db : DB) (username : String) : Option User :=
  db.users.find? (fun u => u.username == username)

/-- The rowid SQLite assigns to a freshly inserted `user` row
(`INTEGER PRIMARY KEY`: one more than the largest existing id). -/
def next_user_id (db : DB) : Nat :=
  List.foldr (fun (u : User) m => max u.id m) 0 db.users + 1

/-- The rowid SQLite assigns to a freshly inserted `post` row. -/
def next_post_id (db : DB) : Nat :=
  List.foldr (fun (p : Post) m => max p.id m) 0 db.posts + 1

/-- Result of the `register` view on a POST request: the database afterwards,
the SQL statements executed, and the HTTP outcome. -/
structure RegisterResult where
  db : DB
  queries : List String
  response : Response
deriving Repr, DecidableEq

/-- Text of the INSERT statement run by `register`. -/
def registerInsertSql : String := "INSERT INTO user (username, password) VALUES (?, ?)"

/-- The POST branch of the `register` view (`auth.py`).  Reads
`request.form['username']` then `request.form['password']` (a missing key
raises `KeyError` before any database access); validates both non-empty;
then INSERTs the username with the hashed password, turning the UNIQUE
violation (`IntegrityError`) into the "already registered" flash; on success
redirects to `url_for("auth.login")`.  A flashed error falls through to
re-rendering the form.  (On GET the view just renders `auth/register.html`.) -/
def register_post (genHash : String → String) (urlFor : String → Option String)
    (db : DB) (form : Form) : RegisterResult :=
  match formGet form "username" with
  | none => ⟨db, [], Response.keyError⟩
  | some username =>
    match formGet form "password" with
    | none => ⟨db, [], Response.keyError⟩
    | some password =>
      if username = "" then
        ⟨db, [], Response.render "auth/register.html" ["Username is required."]⟩
      else if password = "" then
        ⟨db, [], Response.render "auth/register.html" ["Password is required."]⟩
      else if db.users.any (fun u => u.username == username) then
        ⟨db, [registerInsertSql],
         Response.render "auth/register.html" [s!"User {username} is already registered."]⟩
      else
        ⟨{ db with users :=
             db.users ++ [⟨next_user_id db, username, genHash password⟩] },
         [registerInsertSql],
         redirectTo urlFor "auth.login"⟩

/-- Result of the `login` view on a POST request: the session afterwards, the
SQL statements executed, and the HTTP outcome (`login` never writes the
database). -/
structure LoginResult where
  session : Session
  queries : List String
  response : Response
deriving Repr, DecidableEq

/-- Text of the SELECT statement run by `login`. -/
def loginSelectSql : String := "SELECT * FROM user WHERE username = ?"

/-- The POST branch of the `login` view (`auth.py`).  Reads
`request.form['username']` then `request.form['password']` (a missing key
raises `KeyError` before any database access); fetches the user row by
username; flashes "Incorrect username." when no row matches, "Incorrect
password." when `check_password_hash` fails; otherwise `session.clear()`,
`session['user_id'] = user['id']`, and `redirect(url_for('index'))`.
(On GET the view just renders `auth/login.html`.) -/
def login_post (checkHash : String → String → Bool) (urlFor : String → Option String)
    (db : DB) (session : Session) (form : Form) : LoginResult :=
  match formGet form "username" with
  | none => ⟨session, [], Response.keyError⟩
  | some username =>
    match formGet form "password" with
    | none => ⟨session, [], Response.keyError⟩
    | some password =>
      match find_user_by_username db username with
      | none =>
        ⟨session, [loginSelectSql],
         Response.render "auth/login.html" ["Incorrect username."]⟩
      | some user =>
        if checkHash user.password password then
          ⟨[("user_id", user.id)], [loginSelectSql],
           redirectTo urlFor "index"⟩
        else
          ⟨session, [loginSelectSql],
           Response.render "auth/login.html" ["Incorrect password."]⟩

/-- `load_logged_in_user` (`auth.py`): reads `session.get('user_id')` and, if
present, loads the user row with that id into `g.user`; `g.user` is `None`
when the key is absent or the id resolves to no row. -/
def load_logged_in_user (db : DB) (session : Session) : Option User :=
  match sessionGet session "user_id" with
  | none => none
  | some uid => db.users.find? (fun u => u.id == uid)

/-- The `login_required` decorator (`auth.py`): when `g.user` is `None` the
wrapped view is not called and the guard returns
`redirect(url_for('auth.login'))`; otherwise the wrapped view runs. -/
def login_required (urlFor : String → Option String)
    (view : Option User → DB → DB × Response)
    (g : Option User) (db : DB) : DB × Response :=
  match g with
  | none => (db, redirectTo urlFor "auth.login")
  | some _ => view g db

/-! ### Blog blueprint (`src/flaskr/blog.py`) -/

/-- One row of the `post JOIN user` SELECT used by `index` and `get_post`:
`p.id, title, body, created, author_id, username`. -/
structure PostWithAuthor where
  id : Nat
  author_id : Nat
  created : Nat
  title : String
  body : String
  username : String
deriving Repr, DecidableEq

/-- The joined row built from a post row and its author's user row. -/
def joinRow (p : Post) (u : User) : PostWithAuthor :=
  ⟨p.id, p.author_id, p.created, p.title, p.body, u.username⟩

/-- Forgetting the joined username again: the `post`-table fields of a
joined row. -/
def rowPost (r : PostWithAuthor) : Post :=
  ⟨r.id, r.author_id, r.created, r.title, r.body⟩

/-- `FROM post p JOIN user u ON p.author_id = u.id`: inner-join semantics — a
post row whose `author_id` matches no user row produces no output row. -/
def joinPosts (users : List User) (posts : List Post) : List PostWithAuthor :=
  posts.filterMap (fun p => (users.find? (fun u => u.id == p.author_id)).map (joinRow p))

/-- One insertion step of `ORDER BY created DESC`: place `x` after the prefix
of rows whose `created` is at least `x.created`. -/
def insertDesc (x : PostWithAuthor) : List PostWithAuthor → List PostWithAuthor
  | [] => [x]
  | y :: ys => if x.created ≤ y.created then y :: insertDesc x ys else x :: y :: ys

/-- `ORDER BY created DESC` as insertion sort. -/
def sortCreatedDesc : List PostWithAuthor → List PostWithAuthor
  | [] => []
  | x :: xs => insertDesc x (sortCreatedDesc xs)

/-- The query of the `index` view: all posts joined with their author's
username, ordered by creation time descending.  The view passes the rows to
`render_template('blog/index.html')`; it takes no requester argument. -/
def index_query (db : DB) : List PostWithAuthor :=
  sortCreatedDesc (joinPosts db.users db.posts)

/-- The `SELECT ... WHERE p.id = ?` + `fetchone()` inside `get_post`. -/
def get_post_query (db : DB) (id : Nat) : Option PostWithAuthor :=
  (db.posts.find? (fun p => p.id == id)).bind
    (fun p => (db.users.find? (fun u => u.id == p.author_id)).map (joinRow p))

/-- The message `get_post` passes to `abort(404, ...)`. -/
def post_not_found_msg (id : Nat) : String := s!"Post id {id} doesn't exist."

/-- How `get_post` can fail. -/
inductive GetPostErr where
  /-- `abort(404, msg)`: no post row has the requested id. -/
  | notFound (msg : String)
  /-- `abort(403)`: `check_author` and the post's author is not `g.user`. -/
  | forbidden
  /-- `g.user['id']` with `g.user = None` (`TypeError`): only reachable when
  `check_author` is true. -/
  | noneType
deriving Repr, DecidableEq

/-- `get_post(id, check_author=True)` (`blog.py`): fetch the joined row by
id; `abort(404)` when there is none; then, only when `check_author`, compare
`post['author_id']` with `g.user['id']` and `abort(403)` on mismatch
(Python's `and` short-circuits, so `g.user` is never touched when
`check_author` is false). -/
def get_post (db : DB) (g : Option User) (id : Nat) (check_author : Bool) :
    Except GetPostErr PostWithAuthor :=
  match get_post_query db id with
  | none => Except.error (GetPostErr.notFound (post_not_found_msg id))
  | some post =>
    if check_author then
      match g with
      | none => Except.error GetPostErr.noneType
      | some user =>
        if post.author_id ≠ user.id then Except.error GetPostErr.forbidden
        else Except.ok post
    else Except.ok post

/-- Mapping a `get_post` failure to the response `abort` produces. -/
def abortResponse : GetPostErr → Response
  | GetPostErr.notFound msg => Response.abortStatus 404 msg
  | GetPostErr.forbidden => Response.abortStatus 403 ""
  | GetPostErr.noneType => Response.noneTypeError

/-- The `create` view body (`blog.py`), after the `login_required` guard.
On POST: reads `title` and `body` from the form, flashes "Title is required."
when the title is empty (re-rendering the form), otherwise INSERTs a post
with `author_id = g.user['id']` and `created` defaulted to the current
timestamp `now`, and redirects to `url_for('blog.index')`.  On GET it
renders `blog/create.html`. -/
def create_view (urlFor : String → Option String) (g : Option User) (db : DB)
    (method_post : Bool) (form : Form) (now : Nat) : DB × Response :=
  if method_post then
    match formGet form "title" with
    | none => (db, Response.keyError)
    | some title =>
      match formGet form "body" with
      | none => (db, Response.keyError)
      | some body =>
        if title = "" then
          (db, Response.render "blog/create.html" ["Title is required."])
        else
          match g with
          | none => (db, Response.noneTypeError)
          | some user =>
            ({ db with posts :=
                 db.posts ++ [⟨next_post_id db, user.id, now, title, body⟩] },
             redirectTo urlFor "blog.index")
  else (db, Response.render "blog/create.html" [])

/-- The `update` view body (`blog.py`), after the `login_required` guard.
First resolves `get_post(id)` (author check on), aborting 404/403 before
anything else; then on POST validates the title and runs
`UPDATE post SET title = ?, body = ? WHERE id = ?`, redirecting to
`url_for('blog.index')`; on GET (or on a validation error) renders
`blog/update.html`. -/
def update_view (urlFor : String → Option String) (g : Option User) (db : DB)
    (id : Nat) (method_post : Bool) (form : Form) : DB × Response :=
  match get_post db g id true with
  | Except.error e => (db, abortResponse e)
  | Except.ok _ =>
    if method_post then
      match formGet form "title" with
      | none => (db, Response.keyError)
      | some title =>
        match formGet form "body" with
        | none => (db, Response.keyError)
        | some body =>
          if title = "" then
            (db, Response.render "blog/update.html" ["Title is required."])
          else
            ({ db with posts := db.posts.map (fun p =>
                 if p.id == id then { p with title := title, body := body } else p) },
             redirectTo urlFor "blog.index")
    else (db, Response.render "blog/update.html" [])

/-- The `delete` view body (`blog.py`), after the `login_required` guard
(POST only).  Resolves `get_post(id)` (author check on), aborting 404/403
before anything else; then runs `DELETE FROM post WHERE id = ?` and
redirects to `url_for('blog.index')`. -/
def delete_view (urlFor : String → Option String) (g : Option User) (db : DB)
    (id : Nat) : DB × Response :=
  match get_post db g id true with
  | Except.error e => (db, abortResponse e)
  | Except.ok _ =>
    ({ db with posts := db.posts.filter (fun p => p.id != id) },
     redirectTo urlFor "blog.index")

/-! ### Concrete test fixtures (mirroring the test data of `tests/conftest.py`:
a `test` user, a second user, and posts owned by each). -/

/-- A concrete stand-in for werkzeug's `generate_password_hash`. -/
def genHash0 : String → String := fun p => "pbkdf2:" ++ p

/-- A concrete stand-in for werkzeug's `check_password_hash`, matching
`genHash0`. -/
def checkHash0 : String → String → Bool := fun stored given => stored == "pbkdf2:" ++ given

/-- The `test` user of the fixtures. -/
def user_test : User := ⟨1, "test", "pbkdf2:test"⟩

/-- A second registered user. -/
def user_other : User := ⟨2, "other", "pbkdf2:other"⟩

/-- A post owned by `user_test`. -/
def post_one : Post := ⟨1, 1, 10, "T", "B"⟩

/-- A post owned by `user_other`, created later than `post_one`. -/
def post_two : Post := ⟨2, 2, 20, "T2", "B2"⟩

/-- A concrete database state with both users and both posts. -/
def db0 : DB := ⟨[user_test, user_other], [post_one, post_two]⟩

/-- The username reused in the duplicate-registration scenario. -/
def uname0 : String := "test"

/-! ### Theorems -/

/-- C1: the claim says a GET of `/` on every application produced by
`create_app` reaches the post-listing view.  It does not: `create_app`
(src/flaskr/__init__.py) registers only the `/hello` route and the auth
blueprint — the blog blueprint, whose `index` view is the post listing at
`/`, is never registered, and no `index` endpoint or `/` rule is added.  So
the application routes no endpoint at `/` (HTTP 404), and `url_for('index')`
— which the login and logout views themselves call — resolves to nothing
(BuildError).  The repository's own test `test_auth.test_login` asserts that
a successful login redirects to `/`, which this wiring cannot satisfy: the
registration of the blog blueprint is missing from the factory. -/
theorem C1_index_route_missing :
    route_endpoint create_app_rules "/" = none ∧
    url_for create_app_rules "index" = none ∧
    url_for create_app_rules "blog.index" = none ∧
    ("blog.index", "/") ∈ blog_bp_rules := by decide

/-- C2: for a logged-in requester, the `update` and `delete` views abort
with HTTP 404 when no post has the requested id, and with HTTP 403 when the
post exists but is owned by a different user; in both failure cases the
database is returned unchanged (no mutation was performed). -/
theorem C2_update_delete_missing_or_foreign (urlFor : String → Option String)
    (db : DB) (u : User) (id : Nat) (mp : Bool) (form : Form) :
    (get_post_query db id = none →
      update_view urlFor (some u) db id mp form =
        (db, Response.abortStatus 404 (post_not_found_msg id)) ∧
      delete_view urlFor (some u) db id =
        (db, Response.abortStatus 404 (post_not_found_msg id))) ∧
    (∀ post : PostWithAuthor, get_post_query db id = some post → post.author_id ≠ u.id →
      update_view urlFor (some u) db id mp form = (db, Response.abortStatus 403 "") ∧
      delete_view urlFor (some u) db id = (db, Response.abortStatus 403 "")) := by
  constructor
  · intro h
    constructor
    · simp [update_view, get_post, h, abortResponse]
    · simp [delete_view, get_post, h, abortResponse]
  · intro post hp hne
    constructor
    · simp [update_view, get_post, hp, hne, abortResponse]
    · simp [delete_view, get_post, hp, hne, abortResponse]

/-- Witness for C2: in the concrete database, post id 99 does not exist and
updating it as `user_test` yields 404 with the database untouched; post id 2
exists but is owned by `user_other`, and deleting it as `user_test` yields
403 with the database untouched. -/
theorem C2_update_delete_missing_or_foreign_witness :
    (get_post_query db0 99 = none ∧
     update_view uf_app (some user_test) db0 99 true [] =
       (db0, Response.abortStatus 404 (post_not_found_msg 99))) ∧
    (get_post_query db0 2 = some (joinRow post_two user_other) ∧
     (joinRow post_two user_other).author_id ≠ user_test.id ∧
     delete_view uf_app (some user_test) db0 2 = (db0, Response.abortStatus 403 "")) :=
  ⟨⟨by decide,
    ((C2_update_delete_missing_or_foreign uf_app db0 user_test 99 true []).1 (by decide)).1⟩,
   ⟨by decide, by decide,
    ((C2_update_delete_missing_or_foreign uf_app db0 user_test 2 true []).2
      (joinRow post_two user_other) (by decide) (by decide)).2⟩⟩

/-- C3: evaluation of a successful login POST against the application
`create_app` actually builds.  The handler does clear the prior session and
store exactly the matched user's id in the fresh session (session-fixation
prevention works as claimed), but the final `redirect(url_for('index'))`
does not produce a redirect to `/`: no `index` endpoint is registered (the
blog blueprint is never registered by the factory), so `url_for` raises
`BuildError` and the request fails with HTTP 500 instead of redirecting —
contradicting both the claim and the repository's own test
`test_auth.test_login`, which asserts the redirect `Location` is `/`. -/
theorem C3_login_success_build_error :
    login_post checkHash0 uf_app db0 [("user_id", 2), ("stale", 7)]
      [("username", "test"), ("password", "test")] =
    ⟨[("user_id", 1)], [loginSelectSql], Response.buildError⟩ := by decide

/-- C4: for a login POST carrying both form keys, if no user row matches the
submitted username the handler re-renders the form with the flash
"Incorrect username."; if a user matches but the password-hash comparison
fails it re-renders with "Incorrect password."; in both cases the session is
returned exactly as it was (no user id is stored). -/
theorem C4_login_failure_messages (chk : String → String → Bool)
    (urlFor : String → Option String) (db : DB) (s : Session) (form : Form)
    (un pw : String) (hu : formGet form "username" = some un)
    (hp : formGet form "password" = some pw) :
    (find_user_by_username db un = none →
      login_post chk urlFor db s form =
        ⟨s, [loginSelectSql], Response.render "auth/login.html" ["Incorrect username."]⟩) ∧
    (∀ u : User, find_user_by_username db un = some u → chk u.password pw = false →
      login_post chk urlFor db s form =
        ⟨s, [loginSelectSql], Response.render "auth/login.html" ["Incorrect password."]⟩) := by
  constructor
  · intro h
    simp [login_post, hu, hp, h]
  · intro u h hc
    simp [login_post, hu, hp, h, hc]

/-- Witness for C4: in the concrete database, username `nosuch` matches no
row and flashes "Incorrect username."; username `test` matches `user_test`
but password `bad` fails the hash check and flashes "Incorrect password.";
the (empty) session is unchanged in both runs. -/
theorem C4_login_failure_messages_witness :
    (formGet [("username", "nosuch"), ("password", "x")] "username" = some "nosuch" ∧
     find_user_by_username db0 "nosuch" = none ∧
     login_post checkHash0 uf_app db0 [] [("username", "nosuch"), ("password", "x")] =
       ⟨[], [loginSelectSql], Response.render "auth/login.html" ["Incorrect username."]⟩) ∧
    (find_user_by_username db0 "test" = some user_test ∧
     checkHash0 user_test.password "bad" = false ∧
     login_post checkHash0 uf_app db0 [] [("username", "test"), ("password", "bad")] =
       ⟨[], [loginSelectSql], Response.render "auth/login.html" ["Incorrect password."]⟩) :=
  ⟨⟨by decide, by decide,
    (C4_login_failure_messages checkHash0 uf_app db0 []
      [("username", "nosuch"), ("password", "x")] "nosuch" "x"
      (by decide) (by decide)).1 (by decide)⟩,
   ⟨by decide, by decide,
    (C4_login_failure_messages checkHash0 uf_app db0 []
      [("username", "test"), ("password", "bad")] "test" "bad"
      (by decide) (by decide)).2 user_test (by decide) (by decide)⟩⟩

/-- C5: a registration POST with non-empty username and password, where
exactly one user row with that username already exists, re-renders the form
with the "already registered" conflict flash, leaves the database unchanged,
and exactly one user row with that username exists afterward. -/
theorem C5_register_conflict (genHash : String → String)
    (urlFor : String → Option String) (db : DB) (form : Form) (un pw : String)
    (hu : formGet form "username" = some un) (hp : formGet form "password" = some pw)
    (hune : un ≠ "") (hpne : pw ≠ "")
    (hone : db.users.countP (fun u => u.username == un) = 1) :
    (register_post genHash urlFor db form).db = db ∧
    (register_post genHash urlFor db form).response =
      Response.render "auth/register.html" [s!"User {un} is already registered."] ∧
    ((register_post genHash urlFor db form).db.users.countP
      (fun u => u.username == un)) = 1 := by
  have hpos : 0 < db.users.countP (fun u => u.username == un) := by
    rw [hone]; exact Nat.one_pos
  rcases List.countP_pos_iff.mp hpos with ⟨a, ha, hpa⟩
  have hany : db.users.any (fun u => u.username == un) = true :=
    List.any_eq_true.mpr ⟨a, ha, hpa⟩
  refine ⟨?_, ?_, ?_⟩ <;> simp [register_post, hu, hp, hune, hpne, hany, hone]

/-- Witness for C5: the concrete database already holds exactly one user
named `test`; registering `test` again (password `x`) leaves the database
unchanged, flashes the conflict message, and exactly one `test` row remains. -/
theorem C5_register_conflict_witness :
    (formGet [("username", uname0), ("password", "x")] "username" = some uname0 ∧
     formGet [("username", uname0), ("password", "x")] "password" = some "x" ∧
     uname0 ≠ "" ∧ "x" ≠ "" ∧
     db0.users.countP (fun u => u.username == uname0) = 1) ∧
    ((register_post genHash0 uf_app db0 [("username", uname0), ("password", "x")]).db = db0 ∧
     (register_post genHash0 uf_app db0 [("username", uname0), ("password", "x")]).response =
       Response.render "auth/register.html" [s!"User {uname0} is already registered."] ∧
     ((register_post genHash0 uf_app db0
         [("username", uname0), ("password", "x")]).db.users.countP
       (fun u => u.username == uname0)) = 1) :=
  ⟨⟨by decide, by decide, by decide, by decide, by decide⟩,
   C5_register_conflict genHash0 uf_app db0 [("username", uname0), ("password", "x")]
     uname0 "x" (by decide) (by decide) (by decide) (by decide) (by decide)⟩

/-- The `login_required` guard of the application `create_app` builds, with
`g.user = None`: the wrapped view never runs and the guard redirects to the
registered login URL. -/
theorem login_required_none (view : Option User → DB → DB × Response) (db : DB) :
    login_required uf_app view none db = (db, Response.redirect "/auth/login") := by
  have h : redirectTo uf_app "auth.login" = Response.redirect "/auth/login" := by decide
  simp [login_required, h]

/-- C7: a request to any of the three mutating blog views (`create`,
`update`, `delete`) made while no user is loaded (`g.user = None`) is
answered by the `login_required` guard with a redirect to `/auth/login`,
without invoking the wrapped view: the database is returned unchanged, so no
post row is inserted, modified, or deleted. -/
theorem C7_login_required_blocks (db : DB) (id : Nat) (mp : Bool) (form : Form)
    (now : Nat) :
    login_required uf_app (fun g d => create_view uf_app g d mp form now) none db =
      (db, Response.redirect "/auth/login") ∧
    login_required uf_app (fun g d => update_view uf_app g d id mp form) none db =
      (db, Response.redirect "/auth/login") ∧
    login_required uf_app (fun g d => delete_view uf_app g d id) none db =
      (db, Response.redirect "/auth/login") :=
  ⟨login_required_none _ db, login_required_none _ db, login_required_none _ db⟩

/-- C9: a POST to `register` or `login` whose form lacks the `username` or
the `password` key hits the `request.form[...]` `KeyError` before any SQL
statement runs: the executed-query trace is empty, the database and the
session are unchanged, and the request fails with the key-error outcome
(HTTP 400 under Flask). -/
theorem C9_missing_form_key (genHash : String → String) (chk : String → String → Bool)
    (urlFor : String → Option String) (db : DB) (s : Session) (form : Form)
    (h : formGet form "username" = none ∨ formGet form "password" = none) :
    register_post genHash urlFor db form = ⟨db, [], Response.keyError⟩ ∧
    login_post chk urlFor db s form = ⟨s, [], Response.keyError⟩ := by
  rcases h with h | h
  · exact ⟨by simp [register_post, h], by simp [login_post, h]⟩
  · cases hu : formGet form "username" with
    | none => exact ⟨by simp [register_post, hu], by simp [login_post, hu]⟩
    | some un => exact ⟨by simp [register_post, hu, h], by simp [login_post, hu, h]⟩

/-- Witness for C9: a form carrying only `username` (no `password` key)
makes both handlers fail with the key-error outcome, an empty query trace,
and untouched database and session. -/
theorem C9_missing_form_key_witness :
    (formGet [("username", "a")] "username" = none ∨
     formGet [("username", "a")] "password" = none) ∧
    (register_post genHash0 uf_app db0 [("username", "a")] =
       ⟨db0, [], Response.keyError⟩ ∧
     login_post checkHash0 uf_app db0 [("user_id", 1)] [("username", "a")] =
       ⟨[("user_id", 1)], [], Response.keyError⟩) :=
  ⟨Or.inr (by decide),
   C9_missing_form_key genHash0 checkHash0 uf_app db0 [("user_id", 1)]
     [("username", "a")] (Or.inr (by decide))⟩

/-- C10: for an existing post id, `get_post` with `check_author=False`
returns the post whatever `g.user` is — including `None` — and the only
failure `get_post` can produce with the author check off is the 404
not-found abort: the 403 branch is unreachable. -/
theorem C10_get_post_no_author_check (db : DB) (g : Option User) (id : Nat) :
    (∀ post : PostWithAuthor, get_post_query db id = some post →
      get_post db g id false = Except.ok post) ∧
    (∀ e : GetPostErr, get_post db g id false = Except.error e →
      e = GetPostErr.notFound (post_not_found_msg id)) := by
  constructor
  · intro post hp
    simp [get_post, hp]
  · intro e he
    cases hq : get_post_query db id with
    | none =>
      rw [get_post, hq] at he
      exact (Except.error.inj he).symm
    | some post =>
      rw [get_post, hq] at he
      simp at he

/-- Witness for C10: post id 2 exists and `get_post` with the author check
off returns it even though nobody is logged in (`g.user = None`). -/
theorem C10_get_post_no_author_check_witness :
    get_post_query db0 2 = some (joinRow post_two user_other) ∧
    get_post db0 none 2 false = Except.ok (joinRow post_two user_other) :=
  ⟨by decide,
   (C10_get_post_no_author_check db0 none 2).1 (joinRow post_two user_other) (by decide)⟩

/-- Inserting one row for `ORDER BY created DESC` permutes: the output is
the input with the new row placed somewhere. -/
theorem perm_insertDesc (x : PostWithAuthor) (l : List PostWithAuthor) :
    List.Perm (insertDesc x l) (x :: l) := by
  induction l with
  | nil => exact List.Perm.refl _
  | cons y ys ih =>
    rw [insertDesc]
    by_cases h : x.created ≤ y.created
    · rw [if_pos h]
      exact (ih.cons y).trans (List.Perm.swap x y ys)
    · rw [if_neg h]

/-- The `ORDER BY created DESC` sort returns a permutation of its input. -/
theorem perm_sortCreatedDesc (l : List PostWithAuthor) :
    List.Perm (sortCreatedDesc l) l := by
  induction l with
  | nil => exact List.Perm.refl _
  | cons x xs ih => exact (perm_insertDesc x (sortCreatedDesc xs)).trans (ih.cons x)

/-- Inserting into a list already ordered by `created` descending keeps it
ordered. -/
theorem pairwise_insertDesc (x : PostWithAuthor) (l : List PostWithAuthor)
    (h : List.Pairwise (fun a b => b.created ≤ a.created) l) :
    List.Pairwise (fun a b => b.created ≤ a.created) (insertDesc x l) := by
  induction l with
  | nil => simp [insertDesc]
  | cons y ys ih =>
    rcases List.pairwise_cons.mp h with ⟨hy, hys⟩
    rw [insertDesc]
    by_cases hc : x.created ≤ y.created
    · rw [if_pos hc]
      refine List.pairwise_cons.mpr ⟨?_, ih hys⟩
      intro z hz
      rcases List.mem_cons.mp ((perm_insertDesc x ys).mem_iff.mp hz) with rfl | hzys
      · exact hc
      · exact hy z hzys
    · rw [if_neg hc]
      refine List.pairwise_cons.mpr ⟨?_, h⟩
      intro z hz
      rcases List.mem_cons.mp hz with rfl | hzys
      · exact Nat.le_of_lt (Nat.lt_of_not_le hc)
      · exact Nat.le_trans (hy z hzys) (Nat.le_of_lt (Nat.lt_of_not_le hc))

/-- The output of the `ORDER BY created DESC` sort is ordered by `created`
descending. -/
theorem pairwise_sortCreatedDesc (l : List PostWithAuthor) :
    List.Pairwise (fun a b => b.created ≤ a.created) (sortCreatedDesc l) := by
  induction l with
  | nil => simp [sortCreatedDesc]
  | cons x xs ih => exact pairwise_insertDesc x (sortCreatedDesc xs) ih

/-- When every post's `author_id` resolves to a user row, the inner join
drops nothing: forgetting the joined username gives back exactly the post
table. -/
theorem joinPosts_map_rowPost (users : List User) (posts : List Post)
    (h : ∀ p ∈ posts, (users.find? (fun u => u.id == p.author_id)).isSome) :
    (joinPosts users posts).map rowPost = posts := by
  induction posts with
  | nil => rfl
  | cons p ps ih =>
    rcases Option.isSome_iff_exists.mp (h p (List.mem_cons_self p ps)) with ⟨u, hu⟩
    have htail : (joinPosts users ps).map rowPost = ps :=
      ih (fun q hq => h q (List.mem_cons_of_mem p hq))
    simp [joinPosts, List.filterMap_cons, hu, rowPost, joinRow] at htail ⊢
    exact htail

/-- Every row the index query returns carries the username of the user row
its `author_id` references. -/
theorem index_query_username (db : DB) (r : PostWithAuthor)
    (hr : r ∈ index_query db) :
    ∃ u : User, u ∈ db.users ∧ u.id = r.author_id ∧ u.username = r.username := by
  have hr' : r ∈ joinPosts db.users db.posts :=
    (perm_sortCreatedDesc (joinPosts db.users db.posts)).mem_iff.mp hr
  rcases List.mem_filterMap.mp hr' with ⟨p, _, hmap⟩
  rcases Option.map_eq_some'.mp hmap with ⟨u, hfind, hjoin⟩
  refine ⟨u, List.mem_of_find?_eq_some hfind, ?_, ?_⟩
  · have hid := List.find?_some hfind
    rw [← hjoin]
    show u.id = p.author_id
    exact eq_of_beq hid
  · rw [← hjoin]
    rfl

/-- C6: for every database state satisfying referential integrity (each
post's `author_id` resolves to a user row), the index query returns a
permutation of the whole post table — no post dropped, none duplicated, no
filtering by requester (the query takes no requester at all) — ordered by
creation time descending, and each returned row carries its author's
username. -/
theorem C6_index_all_posts_newest_first (db : DB)
    (hint : ∀ p ∈ db.posts, (db.users.find? (fun u => u.id == p.author_id)).isSome) :
    List.Perm ((index_query db).map rowPost) db.posts ∧
    List.Pairwise (fun a b => b.created ≤ a.created) (index_query db) ∧
    ∀ r ∈ index_query db,
      ∃ u : User, u ∈ db.users ∧ u.id = r.author_id ∧ u.username = r.username := by
  refine ⟨?_, pairwise_sortCreatedDesc _, fun r hr => index_query_username db r hr⟩
  have h2 := (perm_sortCreatedDesc (joinPosts db.users db.posts)).map rowPost
  rw [joinPosts_map_rowPost db.users db.posts hint] at h2
  exact h2

/-- Witness for C6: the concrete database satisfies referential integrity,
and its index listing is a permutation of the post table, newest first, with
the right usernames attached. -/
theorem C6_index_all_posts_newest_first_witness :
    (∀ p ∈ db0.posts, (db0.users.find? (fun u => u.id == p.author_id)).isSome) ∧
    (List.Perm ((index_query db0).map rowPost) db0.posts ∧
     List.Pairwise (fun a b => b.created ≤ a.created) (index_query db0) ∧
     ∀ r ∈ index_query db0,
       ∃ u : User, u ∈ db0.users ∧ u.id = r.author_id ∧ u.username = r.username) :=
  ⟨by decide, C6_index_all_posts_newest_first db0 (by decide)⟩

/-- The `UPDATE post SET title = ?, body = ? WHERE id = ?` statement relates
old and new post tables row by row: every row keeps its `id`, `author_id`
and `created`; the row with the targeted id gets the new title and body; all
other rows are equal to what they were. -/
theorem forall2_update_frame (posts : List Post) (id : Nat) (t b : String) :
    List.Forall₂ (fun p q : Post =>
        q.id = p.id ∧ q.author_id = p.author_id ∧ q.created = p.created ∧
        (p.id = id → q.title = t ∧ q.body = b) ∧ (p.id ≠ id → q = p))
      posts (posts.map (fun p =>
        if p.id == id then { p with title := t, body := b } else p)) := by
  induction posts with
  | nil => exact List.Forall₂.nil
  | cons p ps ih =>
    refine List.Forall₂.cons ?_ ih
    by_cases h : p.id = id
    · simp [h]
    · simp [h]

/-- C8: a successful update POST (post exists, requester owns it, both form
keys present, non-empty title) rewrites only the targeted post's `title` and
`body`: the user table is untouched, every post row keeps its `id`,
`author_id` and `created`, every other post row is entirely unchanged, and
the response is the redirect to the blog index. -/
theorem C8_update_success_frame (urlFor : String → Option String) (u : User)
    (db : DB) (id : Nat) (form : Form) (t b : String) (post : PostWithAuthor)
    (hpost : get_post_query db id = some post) (hown : post.author_id = u.id)
    (ht : formGet form "title" = some t) (hb : formGet form "body" = some b)
    (htne : t ≠ "") :
    (update_view urlFor (some u) db id true form).1.users = db.users ∧
    List.Forall₂ (fun p q : Post =>
        q.id = p.id ∧ q.author_id = p.author_id ∧ q.created = p.created ∧
        (p.id = id → q.title = t ∧ q.body = b) ∧ (p.id ≠ id → q = p))
      db.posts (update_view urlFor (some u) db id true form).1.posts ∧
    (update_view urlFor (some u) db id true form).2 = redirectTo urlFor "blog.index" := by
  have hrun : update_view urlFor (some u) db id true form =
      ({ db with posts := db.posts.map (fun p =>
           if p.id == id then { p with title := t, body := b } else p) },
       redirectTo urlFor "blog.index") := by
    simp [update_view, get_post, hpost, hown, ht, hb, htne]
  rw [hrun]
  exact ⟨rfl, forall2_update_frame db.posts id t b, rfl⟩

/-- Witness for C8: `user_test` updates their own post 1 with a new title
and body; the user table and every field outside the targeted title/body are
unchanged and the response is the blog-index redirect. -/
theorem C8_update_success_frame_witness :
    (get_post_query db0 1 = some (joinRow post_one user_test) ∧
     (joinRow post_one user_test).author_id = user_test.id ∧
     formGet [("title", "New"), ("body", "NB")] "title" = some "New" ∧
     formGet [("title", "New"), ("body", "NB")] "body" = some "NB" ∧
     "New" ≠ "") ∧
    ((update_view uf_app (some user_test) db0 1 true
        [("title", "New"), ("body", "NB")]).1.users = db0.users ∧
     List.Forall₂ (fun p q : Post =>
         q.id = p.id ∧ q.author_id = p.author_id ∧ q.created = p.created ∧
         (p.id = 1 → q.title = "New" ∧ q.body = "NB") ∧ (p.id ≠ 1 → q = p))
       db0.posts (update_view uf_app (some user_test) db0 1 true
         [("title", "New"), ("body", "NB")]).1.posts ∧
     (update_view uf_app (some user_test) db0 1 true
        [("title", "New"), ("body", "NB")]).2 = redirectTo uf_app "blog.index") :=
  ⟨⟨by decide, by decide, by decide, by decide, by decide⟩,
   C8_update_success_frame uf_app user_test db0 1 [("title", "New"), ("body", "NB")]
     "New" "NB" (joinRow post_one user_test)
     (by decide) (by decide) (by decide) (by decide) (by decide)⟩

end Flaskr
